import Mathlib

/-!
Verification development for the expected-risk-frequencies package.

The embedding below follows `src/expected_frequencies/risk_conversions.py`
and `src/expected_frequencies/expected_frequencies.py`.  Python floats are
modelled as exact rationals (every numeric claim concerns values and
operations that are exact at the expression level), Python `int` counts as
integers, and fallible Python code (division by zero, unsupported measure
kinds) is modelled with `Except`.
-/

namespace ExpectedFrequencies

/-- Errors the embedded code can raise.  `unsupportedMeasureKind` carries the
list of supported kind names, mirroring the `ValueError` message that
enumerates `risk_ratio_conversion_funcs.keys()`;  `zeroDivision` stands for
Python's `ZeroDivisionError`. -/
inductive RiskError where
  | unsupportedMeasureKind (supported : List String)
  | zeroDivision
  deriving DecidableEq, Repr

deriving instance DecidableEq for Except

/-- Embeds `__odds_ratio_to_risk_ratio` from `risk_conversions.py`:
`rr = odds_ratio / (1 - baseline_risk + (odds_ratio * baseline_risk))`.
Python float division raises `ZeroDivisionError` when the denominator is
zero, hence the guard. -/
def odds_ratio_to_risk_ratio (baseline_risk odds_ratio : ℚ) : Except RiskError ℚ :=
  if 1 - baseline_risk + odds_ratio * baseline_risk = 0 then
    .error .zeroDivision
  else
    .ok (odds_ratio / (1 - baseline_risk + odds_ratio * baseline_risk))

/-- Embeds `__hazard_ratio_to_risk_ratio` from `risk_conversions.py`.  The
source first evaluates the exact transform
`rr = (1 - (1 - baseline_risk) ** hazard_ratio) / baseline_risk` and then
immediately overwrites it with `rr = hazard_ratio` ("RealRisk treats HR as
RR"), so the first expression is dead code whose value is discarded.  Its
evaluation is still observable: it raises `ZeroDivisionError` when
`baseline_risk == 0` (float division by zero) and when `baseline_risk == 1`
with a negative exponent (`0.0 ** negative` raises in Python).  Both effects
are kept; the discarded value itself is not modelled. -/
def hazard_ratio_to_risk_ratio (baseline_risk hazard_ratio : ℚ) : Except RiskError ℚ :=
  if baseline_risk = 1 ∧ hazard_ratio < 0 then
    .error .zeroDivision
  else if baseline_risk = 0 then
    .error .zeroDivision
  else
    .ok hazard_ratio

/-- Embeds `__risk_ratio_to_risk_ratio` from `risk_conversions.py`: the
identity conversion. -/
def risk_ratio_to_risk_ratio (baseline_risk risk_ratio : ℚ) : Except RiskError ℚ :=
  .ok risk_ratio

/-- Embeds `__percentage_change_to_risk_ratio` from `risk_conversions.py`:
`rr = 1 + percentage_change / 100`. -/
def percentage_change_to_risk_ratio (baseline_risk percentage_change : ℚ) :
    Except RiskError ℚ :=
  .ok (1 + percentage_change / 100)

/-- Embeds the dict `risk_ratio_conversion_funcs`, as an association list in
the source's insertion order. -/
def risk_ratio_conversion_funcs : List (String × (ℚ → ℚ → Except RiskError ℚ)) :=
  [("odds_ratio", odds_ratio_to_risk_ratio),
   ("hazard_ratio", hazard_ratio_to_risk_ratio),
   ("percentage_change", percentage_change_to_risk_ratio),
   ("risk_ratio", risk_ratio_to_risk_ratio),
   ("relative_risk", risk_ratio_to_risk_ratio)]

/-- The key set of `risk_ratio_conversion_funcs`, i.e. the supported measure
kinds enumerated by the error message. -/
def supportedKinds : List String := risk_ratio_conversion_funcs.map Prod.fst

/-- Python's `str.lower()` restricted to ASCII (every measure-kind name is
ASCII): each character `A`..`Z` is mapped to its lower-case counterpart. -/
def pyLower (s : String) : String :=
  String.mk (s.data.map Char.toLower)

/-- Embeds `calculate_exposed_absolute_risk` from `risk_conversions.py`: the
kind string is lower-cased, looked up in the dict, a missing key raises the
`ValueError` listing the supported kinds, and otherwise
`exposed_risk = baseline_risk * risk_ratio`. -/
def calculate_exposed_absolute_risk (baseline_risk added_risk : ℚ)
    (added_risk_type : String) : Except RiskError ℚ :=
  match risk_ratio_conversion_funcs.lookup (pyLower added_risk_type) with
  | none => .error (.unsupportedMeasureKind supportedKinds)
  | some conversion_func =>
    (conversion_func baseline_risk added_risk).map (fun risk_ratio => baseline_risk * risk_ratio)

/-- Embeds `_calculate_expected_frequencies` from `expected_frequencies.py`:
`baseline_ef = population_size * baseline_risk` and
`exposed_ef = population_size * exposed_absolute_risk`, where the exposed
absolute risk comes from `calculate_exposed_absolute_risk` (whose error, if
any, propagates). -/
def calculate_expected_frequencies (baseline_risk added_risk : ℚ)
    (added_risk_type : String) (population_size : ℕ) : Except RiskError (ℚ × ℚ) :=
  (calculate_exposed_absolute_risk baseline_risk added_risk added_risk_type).map
    (fun exposed_absolute_risk =>
      ((population_size : ℚ) * baseline_risk,
       (population_size : ℚ) * exposed_absolute_risk))

/-- One row of the chart source data built by `__generate_chart_source_data`
in `expected_frequencies.py`: `id` counts from 1, `hue` is 0 for the plain
population, 1 for baseline-risk units, 2 for additional exposed units, and
`reduced` marks baseline units crossed out under risk reduction. -/
structure IconUnit where
  id : ℕ
  hue : ℕ
  reduced : Bool
  deriving DecidableEq, Repr

/-- Resolves a Python slice endpoint against a list of length `n`: a
negative endpoint counts from the end (clamped below at 0), a non-negative
one is clamped above at `n`.  `Int.toNat` performs the clamping at 0. -/
def clampIndex (n : ℕ) (a : ℤ) : ℕ :=
  if a < 0 then ((n : ℤ) + a).toNat else min a.toNat n

/-- The record the source builds for the unit at zero-based index `i`.
This is the functional reading of the mutation loop in
`__generate_chart_source_data`: every row starts as `{hue: 0,
reduced: False}`; rows in the slice `data[:baseline_ef]` get `hue = 1`; if
`exposed_ef >= baseline_ef` the rows in `data[baseline_ef:exposed_ef]` get
`hue = 2`; otherwise the rows in `data[baseline_ef - exposed_ef:baseline_ef]`
get `reduced = True`.  Slice endpoints follow Python semantics via
`clampIndex`. -/
def chartUnit (baseline_ef exposed_ef : ℤ) (population_size : ℕ) (i : ℕ) : IconUnit :=
  let hue1 : ℕ := if i < clampIndex population_size baseline_ef then 1 else 0
  let hue2 : ℕ :=
    if exposed_ef ≥ baseline_ef then
      if clampIndex population_size baseline_ef ≤ i ∧
          i < clampIndex population_size exposed_ef then 2 else hue1
    else hue1
  let red : Bool :=
    if exposed_ef < baseline_ef then
      decide (clampIndex population_size (baseline_ef - exposed_ef) ≤ i ∧
        i < clampIndex population_size baseline_ef)
    else false
  ⟨i + 1, hue2, red⟩

/-- Embeds `__generate_chart_source_data` from `expected_frequencies.py`:
the list `[{"id": i, "hue": 0, "reduced": False} for i in range(1,
population_size + 1)]` after the in-place slice assignments, one
`chartUnit` per zero-based index. -/
def generate_chart_source_data (baseline_ef exposed_ef : ℤ)
    (population_size : ℕ) : List IconUnit :=
  (List.range population_size).map (chartUnit baseline_ef exposed_ef population_size)

/-- Round half to even on rationals, the behaviour of Python's built-in
`round` on a float (modelled exactly on the rational value). -/
def roundHalfToEven (q : ℚ) : ℤ :=
  if q - ⌊q⌋ < 1/2 then ⌊q⌋
  else if 1/2 < q - ⌊q⌋ then ⌊q⌋ + 1
  else if ⌊q⌋ % 2 = 0 then ⌊q⌋ else ⌊q⌋ + 1

/-- A Python number as `_plot_isotype_array` receives it: either an `int`
or a `float` (the float's value modelled as an exact rational). -/
inductive PyNum where
  | int (n : ℤ)
  | float (q : ℚ)
  deriving DecidableEq, Repr

/-- Tests `isinstance(x, float)`, the exact condition of the warning guard
in `_plot_isotype_array`. -/
def PyNum.isFloat : PyNum → Bool
  | .int _ => false
  | .float _ => true

/-- Whether the numeric value is a whole number (an `int` always is; a
`float` is when its rational value has denominator 1). -/
def PyNum.isIntegral : PyNum → Bool
  | .int _ => true
  | .float q => q.den == 1

/-- Python's one-argument `round`: the identity on an `int`, round half to
even on a `float`. -/
def PyNum.round : PyNum → ℤ
  | .int n => n
  | .float q => roundHalfToEven q

/-- Embeds the warning guard of `_plot_isotype_array` in
`expected_frequencies.py`: `warnings.warn(...)` fires iff
`isinstance(baseline_ef, float) or isinstance(exposed_ef, float)`. -/
def plot_isotype_array_warns (baseline_ef exposed_ef : PyNum) : Bool :=
  baseline_ef.isFloat || exposed_ef.isFloat

/-- Embeds the data path of `_plot_isotype_array`: both counts pass through
`round(...)` and the rounded integers feed `__generate_chart_source_data`.
The Altair chart construction around this data is presentation glue and is
not modelled. -/
def plot_isotype_array_data (baseline_ef exposed_ef : PyNum)
    (population_size : ℕ) : List IconUnit :=
  generate_chart_source_data baseline_ef.round exposed_ef.round population_size

/-! Helper lemmas about the dispatch table. -/

lemma lookup_odds :
    risk_ratio_conversion_funcs.lookup "odds_ratio" = some odds_ratio_to_risk_ratio := rfl

lemma lookup_hazard :
    risk_ratio_conversion_funcs.lookup "hazard_ratio" = some hazard_ratio_to_risk_ratio := rfl

lemma lookup_percentage :
    risk_ratio_conversion_funcs.lookup "percentage_change"
      = some percentage_change_to_risk_ratio := rfl

lemma lookup_risk :
    risk_ratio_conversion_funcs.lookup "risk_ratio" = some risk_ratio_to_risk_ratio := rfl

lemma lookup_relative :
    risk_ratio_conversion_funcs.lookup "relative_risk" = some risk_ratio_to_risk_ratio := rfl

lemma calc_eq_dispatch (baseline_risk added_risk : ℚ) (added_risk_type : String)
    (f : ℚ → ℚ → Except RiskError ℚ)
    (hf : risk_ratio_conversion_funcs.lookup (pyLower added_risk_type) = some f) :
    calculate_exposed_absolute_risk baseline_risk added_risk added_risk_type
      = (f baseline_risk added_risk).map (fun risk_ratio => baseline_risk * risk_ratio) := by
  simp only [calculate_exposed_absolute_risk, hf]

lemma calc_risk_ratio_eq (b v : ℚ) :
    calculate_exposed_absolute_risk b v "risk_ratio" = Except.ok (b * v) := rfl

lemma calc_relative_risk_eq (b v : ℚ) :
    calculate_exposed_absolute_risk b v "relative_risk" = Except.ok (b * v) := rfl

/-- CLAIM C9: for measure kind "risk_ratio" or "relative_risk" (aliases of
the same identity strategy), `calculate_exposed_absolute_risk b v kind`
returns `b * v` for all `b` and `v`. -/
theorem risk_ratio_identity_conversion (b v : ℚ) :
    calculate_exposed_absolute_risk b v "risk_ratio" = Except.ok (b * v)
    ∧ calculate_exposed_absolute_risk b v "relative_risk" = Except.ok (b * v) :=
  ⟨calc_risk_ratio_eq b v, calc_relative_risk_eq b v⟩

/-- CLAIM C5: whenever the risk conversion yields an exposed absolute risk,
`_calculate_expected_frequencies` returns exactly the pair
`(population_size * baseline_risk, population_size * exposed_absolute_risk)`. -/
theorem compute_expected_frequencies_spec (b v : ℚ) (kind : String) (n : ℕ) (ear : ℚ)
    (h : calculate_exposed_absolute_risk b v kind = Except.ok ear) :
    calculate_expected_frequencies b v kind n
      = Except.ok ((n : ℚ) * b, (n : ℚ) * ear) := by
  simp only [calculate_expected_frequencies, h, Except.map]

/-- Witness for C5 at the spec's example:
`compute_expected_frequencies(0.1, 1.5, "risk_ratio", 100) == (10.0, 15.0)`. -/
theorem compute_expected_frequencies_spec_witness :
    calculate_expected_frequencies (1/10) (3/2) "risk_ratio" 100 = Except.ok (10, 15) := by
  have h := compute_expected_frequencies_spec (1/10) (3/2) "risk_ratio" 100 (3/20)
    (by rw [calc_risk_ratio_eq]; norm_num)
  rw [h]
  norm_num

/-- CLAIM C10: for measure kind "hazard_ratio" with `baseline_risk == 0` the
call does not return a value: the dead exact-transform expression
`(1 - (1 - baseline_risk) ** hazard_ratio) / baseline_risk` is still
evaluated before being overwritten, so the call raises `ZeroDivisionError`
instead of returning 0, for every hazard-ratio value. -/
theorem hazard_ratio_zero_baseline_raises (hr : ℚ) :
    calculate_exposed_absolute_risk 0 hr "hazard_ratio"
      = Except.error RiskError.zeroDivision := by
  rw [calc_eq_dispatch 0 hr "hazard_ratio" hazard_ratio_to_risk_ratio lookup_hazard]
  have hz : hazard_ratio_to_risk_ratio 0 hr = .error .zeroDivision := by
    simp [hazard_ratio_to_risk_ratio]
  rw [hz]
  rfl

/-- Counterexample to CLAIM C1 as stated: at `baseline_risk = 0` (inside the
claimed interval `[0, 1]`) the hazard-ratio call with `v = 1.5` raises a
division-by-zero error instead of returning `0 * 1.5`. -/
theorem hazard_ratio_zero_baseline_counterexample :
    calculate_exposed_absolute_risk 0 (3/2) "hazard_ratio"
        = Except.error RiskError.zeroDivision
    ∧ calculate_exposed_absolute_risk 0 (3/2) "hazard_ratio"
        ≠ Except.ok (0 * (3/2)) := by
  rw [calc_eq_dispatch 0 (3/2) "hazard_ratio" hazard_ratio_to_risk_ratio lookup_hazard]
  have hz : hazard_ratio_to_risk_ratio 0 (3/2) = .error .zeroDivision := by
    simp [hazard_ratio_to_risk_ratio]
  rw [hz]
  exact ⟨rfl, by simp [Except.map]⟩

/-- CLAIM C1, amended: for measure kind "hazard_ratio" the risk ratio used
is the hazard-ratio value itself, so for every baseline risk in `(0, 1]`
(zero excluded: there the dead exact-transform raises) and every
non-negative measure value `v`, in particular `v = 1.5`, the call returns
`b * v`. -/
theorem hazard_ratio_passthrough (b v : ℚ) (hb0 : 0 < b) (hb1 : b ≤ 1) (hv : 0 ≤ v) :
    calculate_exposed_absolute_risk b v "hazard_ratio" = Except.ok (b * v) := by
  rw [calc_eq_dispatch b v "hazard_ratio" hazard_ratio_to_risk_ratio lookup_hazard]
  have hz : hazard_ratio_to_risk_ratio b v = .ok v := by
    simp only [hazard_ratio_to_risk_ratio]
    rw [if_neg (by rintro ⟨-, h2⟩; exact absurd h2 (not_lt.mpr hv)),
        if_neg (ne_of_gt hb0)]
  rw [hz]
  rfl

/-- Witness for the amended C1 at `b = 1/2`, `v = 3/2`. -/
theorem hazard_ratio_passthrough_witness :
    calculate_exposed_absolute_risk (1/2) (3/2) "hazard_ratio" = Except.ok (3/4) := by
  have h := hazard_ratio_passthrough (1/2) (3/2) (by norm_num) (by norm_num) (by norm_num)
  rw [h]
  norm_num

/-- Counterexample to CLAIM C3 as stated: at `baseline_risk = 1`,
`OR = 0` the odds-ratio denominator `1 - b + OR * b` is zero, so the call
raises a division-by-zero error instead of returning a value. -/
theorem odds_ratio_zero_denominator_counterexample :
    calculate_exposed_absolute_risk 1 0 "odds_ratio"
        = Except.error RiskError.zeroDivision
    ∧ calculate_exposed_absolute_risk 1 0 "odds_ratio"
        ≠ Except.ok (1 * (0 / (1 - 1 + 0 * 1))) := by
  rw [calc_eq_dispatch 1 0 "odds_ratio" odds_ratio_to_risk_ratio lookup_odds]
  have hz : odds_ratio_to_risk_ratio 1 0 = .error .zeroDivision := by
    simp only [odds_ratio_to_risk_ratio]
    rw [if_pos (by norm_num)]
  rw [hz]
  exact ⟨rfl, by simp [Except.map]⟩

/-- CLAIM C3, amended: for measure kind "odds_ratio" the call returns
`b * (OR / (1 - b + OR * b))` for every `b` and `OR` whose denominator
`1 - b + OR * b` is non-zero (within `b ∈ [0,1]`, `OR ≥ 0` it vanishes only
at `b = 1, OR = 0`); in particular for `b = 0.2`, `OR = 2.0` the risk ratio
is `2/1.2 = 5/3` and the exposed absolute risk is `1/3`. -/
theorem odds_ratio_conversion (b v : ℚ) (h : 1 - b + v * b ≠ 0) :
    calculate_exposed_absolute_risk b v "odds_ratio"
      = Except.ok (b * (v / (1 - b + v * b))) := by
  rw [calc_eq_dispatch b v "odds_ratio" odds_ratio_to_risk_ratio lookup_odds]
  simp only [odds_ratio_to_risk_ratio, if_neg h]
  rfl

/-- Witness for the amended C3 at the spec's example `b = 0.2`, `OR = 2.0`:
the exposed absolute risk is exactly `1/3`. -/
theorem odds_ratio_conversion_witness :
    calculate_exposed_absolute_risk (1/5) 2 "odds_ratio" = Except.ok (1/3) := by
  have h := odds_ratio_conversion (1/5) 2 (by norm_num)
  rw [h]
  norm_num

/-! Helper lemmas about the icon-bucket assignment. -/

lemma generate_chart_source_data_length (b e : ℤ) (n : ℕ) :
    (generate_chart_source_data b e n).length = n := by
  simp [generate_chart_source_data]

lemma generate_chart_source_data_get (b e : ℤ) (n i : ℕ)
    (hi : i < (generate_chart_source_data b e n).length) :
    (generate_chart_source_data b e n).get ⟨i, hi⟩ = chartUnit b e n i := by
  simp [generate_chart_source_data]

lemma clampIndex_natCast (n a : ℕ) (h : a ≤ n) : clampIndex n (a : ℤ) = a := by
  simp only [clampIndex]
  split <;> omega

lemma chartUnit_decrease_eq (b e n i : ℕ) (hbe : e < b) (hbn : b ≤ n) :
    chartUnit (b : ℤ) (e : ℤ) n i
      = ⟨i + 1, if i < b then 1 else 0, decide (b - e ≤ i ∧ i < b)⟩ := by
  have h1 : clampIndex n (b : ℤ) = b := clampIndex_natCast n b hbn
  have h2 : clampIndex n ((b : ℤ) - (e : ℤ)) = b - e := by
    simp only [clampIndex]
    split <;> omega
  have hge : ¬ ((e : ℤ) ≥ (b : ℤ)) := by exact_mod_cast Nat.not_le.mpr hbe
  have hlt : (e : ℤ) < (b : ℤ) := by exact_mod_cast hbe
  simp only [chartUnit, h1, h2, if_neg hge, if_pos hlt]

lemma chartUnit_increase_eq (b e n i : ℕ) (hbe : b ≤ e) (hen : e ≤ n) :
    chartUnit (b : ℤ) (e : ℤ) n i
      = ⟨i + 1, if b ≤ i ∧ i < e then 2 else if i < b then 1 else 0, false⟩ := by
  have h1 : clampIndex n (b : ℤ) = b := clampIndex_natCast n b (le_trans hbe hen)
  have h2 : clampIndex n (e : ℤ) = e := clampIndex_natCast n e hen
  have hge : (e : ℤ) ≥ (b : ℤ) := by exact_mod_cast hbe
  have hnlt : ¬ ((e : ℤ) < (b : ℤ)) := not_lt.mpr hge
  simp only [chartUnit, h1, h2, if_pos hge, if_neg hnlt]

/-- CLAIM C2: in the risk-decrease case (`0 ≤ exposed_ef < baseline_ef ≤
population_size`, integer counts), unit `i` (zero-based) is reduced exactly
when `baseline_ef - exposed_ef ≤ i < baseline_ef`, its bucket is baseline
(hue 1) exactly on `i < baseline_ef`, and ids count from 1. -/
theorem assign_icon_buckets_risk_decrease (b e n i : ℕ) (hbe : e < b) (hbn : b ≤ n)
    (hi : i < (generate_chart_source_data (b : ℤ) (e : ℤ) n).length) :
    ((generate_chart_source_data (b : ℤ) (e : ℤ) n).get ⟨i, hi⟩).id = i + 1
    ∧ ((generate_chart_source_data (b : ℤ) (e : ℤ) n).get ⟨i, hi⟩).hue
        = (if i < b then 1 else 0)
    ∧ (((generate_chart_source_data (b : ℤ) (e : ℤ) n).get ⟨i, hi⟩).reduced = true
        ↔ b - e ≤ i ∧ i < b) := by
  rw [generate_chart_source_data_get, chartUnit_decrease_eq b e n i hbe hbn]
  refine ⟨rfl, rfl, ?_⟩
  simp

/-- Witness for C2 at the spec's example `assign_icon_buckets(10, 4, 20)`:
unit index 6 (id 7) is reduced and sits in the baseline bucket. -/
theorem assign_icon_buckets_risk_decrease_witness :
    ((generate_chart_source_data (10 : ℤ) (4 : ℤ) 20).get
        ⟨6, by simp [generate_chart_source_data]⟩).reduced = true := by
  have h := assign_icon_buckets_risk_decrease 10 4 20 6 (by norm_num) (by norm_num)
    (by simp [generate_chart_source_data])
  exact h.2.2.mpr (by omega)

/-- CLAIM C6: in the risk-increase-or-unchanged case (`0 ≤ baseline_ef ≤
exposed_ef ≤ population_size`, integer counts), unit `i` (zero-based) has
bucket baseline (hue 1) for `i < baseline_ef`, exposed (hue 2) for
`baseline_ef ≤ i < exposed_ef`, population (hue 0) otherwise, no unit is
reduced, and ids count from 1. -/
theorem assign_icon_buckets_risk_increase (b e n i : ℕ) (hbe : b ≤ e) (hen : e ≤ n)
    (hi : i < (generate_chart_source_data (b : ℤ) (e : ℤ) n).length) :
    ((generate_chart_source_data (b : ℤ) (e : ℤ) n).get ⟨i, hi⟩).id = i + 1
    ∧ ((generate_chart_source_data (b : ℤ) (e : ℤ) n).get ⟨i, hi⟩).hue
        = (if i < b then 1 else if i < e then 2 else 0)
    ∧ ((generate_chart_source_data (b : ℤ) (e : ℤ) n).get ⟨i, hi⟩).reduced = false := by
  rw [generate_chart_source_data_get, chartUnit_increase_eq b e n i hbe hen]
  refine ⟨rfl, ?_, rfl⟩
  dsimp only
  split_ifs <;> omega

/-- Witness for C6 at the spec's example `assign_icon_buckets(10, 15, 20)`:
unit index 12 (id 13) is in the exposed bucket and not reduced. -/
theorem assign_icon_buckets_risk_increase_witness :
    ((generate_chart_source_data (10 : ℤ) (15 : ℤ) 20).get
        ⟨12, by simp [generate_chart_source_data]⟩).hue = 2 := by
  have h := assign_icon_buckets_risk_increase 10 15 20 12 (by norm_num) (by norm_num)
    (by simp [generate_chart_source_data])
  have h2 := h.2.1
  norm_num at h2
  exact h2

/-- CLAIM C8: for every positive population size and arbitrary integer
baseline/exposed counts (negative or exceeding the population size
included), the bucket assignment yields exactly `population_size` unit
records with ids 1 through `population_size` in order. -/
theorem assign_icon_buckets_length_invariant (b e : ℤ) (n : ℕ) (hn : 0 < n) :
    (generate_chart_source_data b e n).length = n
    ∧ (generate_chart_source_data b e n).map IconUnit.id = List.range' 1 n := by
  refine ⟨generate_chart_source_data_length b e n, ?_⟩
  simp only [generate_chart_source_data, List.map_map]
  have h : (IconUnit.id ∘ chartUnit b e n) = (fun i => 1 + i) := by
    funext i
    simp [chartUnit, Function.comp, Nat.add_comm]
  rw [h, List.range'_eq_map_range]

/-- Witness for C8 with a negative baseline count and an exposed count
exceeding the population size. -/
theorem assign_icon_buckets_length_invariant_witness :
    (generate_chart_source_data (-3 : ℤ) (25 : ℤ) 20).length = 20
    ∧ (generate_chart_source_data (-3 : ℤ) (25 : ℤ) 20).map IconUnit.id
        = List.range' 1 20 :=
  assign_icon_buckets_length_invariant (-3) 25 20 (by norm_num)

/-- Counterexample to CLAIM C7 as stated: with float inputs `10.0` and
`15.0` both counts are integral, yet the warning guard of
`_plot_isotype_array` fires, so the warning is not emitted exactly when a
count is non-integral. -/
theorem isotype_warning_counterexample :
    plot_isotype_array_warns (PyNum.float 10) (PyNum.float 15) = true
    ∧ PyNum.isIntegral (PyNum.float 10) = true
    ∧ PyNum.isIntegral (PyNum.float 15) = true := by
  refine ⟨rfl, ?_, ?_⟩ <;> simp [PyNum.isIntegral]

/-- CLAIM C7, amended: the bucket assignment warns exactly when either input
count is a Python float by runtime type (so every non-integral count warns,
but an integral float also warns and integer inputs never do), and in every
case it proceeds with the counts rounded to integers, producing the full
grid rather than failing. -/
theorem isotype_warning_amended (baseline_ef exposed_ef : PyNum) (population_size : ℕ) :
    plot_isotype_array_warns baseline_ef exposed_ef
        = (baseline_ef.isFloat || exposed_ef.isFloat)
    ∧ ((baseline_ef.isIntegral = false ∨ exposed_ef.isIntegral = false) →
        plot_isotype_array_warns baseline_ef exposed_ef = true)
    ∧ (plot_isotype_array_data baseline_ef exposed_ef population_size).length
        = population_size := by
  refine ⟨rfl, ?_, by simp [plot_isotype_array_data, generate_chart_source_data]⟩
  intro h
  cases baseline_ef <;> cases exposed_ef <;>
    simp_all [PyNum.isIntegral, PyNum.isFloat, plot_isotype_array_warns]

/-- Witness for the amended C7: a genuinely fractional first count makes the
guard fire. -/
theorem isotype_warning_amended_witness :
    plot_isotype_array_warns (PyNum.float (1/2)) (PyNum.int 3) = true :=
  (isotype_warning_amended (PyNum.float (1/2)) (PyNum.int 3) 5).2.1
    (Or.inl (by norm_num [PyNum.isIntegral]))

/-! Helper lemmas for the unsupported-kind characterisation. -/

lemma map_ne_unsupported (x : Except RiskError ℚ) (g : ℚ → ℚ)
    (hx : ∀ l, x ≠ Except.error (RiskError.unsupportedMeasureKind l)) (l : List String) :
    x.map g ≠ Except.error (RiskError.unsupportedMeasureKind l) := by
  cases x with
  | error e =>
    intro hmap
    simp only [Except.map] at hmap
    exact hx l hmap
  | ok a =>
    intro hmap
    simp [Except.map] at hmap

lemma odds_no_unsupported (b v : ℚ) (l : List String) :
    odds_ratio_to_risk_ratio b v
      ≠ Except.error (RiskError.unsupportedMeasureKind l) := by
  simp only [odds_ratio_to_risk_ratio]
  split_ifs <;> simp

lemma hazard_no_unsupported (b v : ℚ) (l : List String) :
    hazard_ratio_to_risk_ratio b v
      ≠ Except.error (RiskError.unsupportedMeasureKind l) := by
  simp only [hazard_ratio_to_risk_ratio]
  split_ifs <;> simp

lemma percentage_no_unsupported (b v : ℚ) (l : List String) :
    percentage_change_to_risk_ratio b v
      ≠ Except.error (RiskError.unsupportedMeasureKind l) := by
  simp [percentage_change_to_risk_ratio]

lemma identity_no_unsupported (b v : ℚ) (l : List String) :
    risk_ratio_to_risk_ratio b v
      ≠ Except.error (RiskError.unsupportedMeasureKind l) := by
  simp [risk_ratio_to_risk_ratio]

lemma lookup_eq_none_of_not_mem (k : String) (hk : k ∉ supportedKinds) :
    risk_ratio_conversion_funcs.lookup k = none := by
  simp only [supportedKinds, risk_ratio_conversion_funcs, List.map_cons, List.map_nil,
    List.mem_cons, List.not_mem_nil, or_false, not_or] at hk
  obtain ⟨h1, h2, h3, h4, h5⟩ := hk
  have e1 : (k == "odds_ratio") = false := beq_eq_false_iff_ne.mpr h1
  have e2 : (k == "hazard_ratio") = false := beq_eq_false_iff_ne.mpr h2
  have e3 : (k == "percentage_change") = false := beq_eq_false_iff_ne.mpr h3
  have e4 : (k == "risk_ratio") = false := beq_eq_false_iff_ne.mpr h4
  have e5 : (k == "relative_risk") = false := beq_eq_false_iff_ne.mpr h5
  simp [risk_ratio_conversion_funcs, List.lookup, e1, e2, e3, e4, e5]

/-- CLAIM C4: `calculate_exposed_absolute_risk` matches the measure kind
case-insensitively (via lower-casing) against the supported set, returns the
`UnsupportedMeasureKind` error enumerating exactly that set whenever the
lower-cased kind is outside it, and never returns that error when the
lower-cased kind is in the set. -/
theorem unsupported_measure_kind_iff (baseline_risk added_risk : ℚ)
    (added_risk_type : String) :
    calculate_exposed_absolute_risk baseline_risk added_risk added_risk_type
        = Except.error (RiskError.unsupportedMeasureKind supportedKinds)
      ↔ pyLower added_risk_type ∉ supportedKinds := by
  constructor
  · intro heq hk
    have hk' : pyLower added_risk_type = "odds_ratio"
        ∨ pyLower added_risk_type = "hazard_ratio"
        ∨ pyLower added_risk_type = "percentage_change"
        ∨ pyLower added_risk_type = "risk_ratio"
        ∨ pyLower added_risk_type = "relative_risk" := by
      simpa [supportedKinds, risk_ratio_conversion_funcs] using hk
    rcases hk' with h|h|h|h|h
    · rw [calc_eq_dispatch baseline_risk added_risk added_risk_type
        odds_ratio_to_risk_ratio (by rw [h]; exact lookup_odds)] at heq
      exact map_ne_unsupported _ _ (odds_no_unsupported baseline_risk added_risk) _ heq
    · rw [calc_eq_dispatch baseline_risk added_risk added_risk_type
        hazard_ratio_to_risk_ratio (by rw [h]; exact lookup_hazard)] at heq
      exact map_ne_unsupported _ _ (hazard_no_unsupported baseline_risk added_risk) _ heq
    · rw [calc_eq_dispatch baseline_risk added_risk added_risk_type
        percentage_change_to_risk_ratio (by rw [h]; exact lookup_percentage)] at heq
      exact map_ne_unsupported _ _ (percentage_no_unsupported baseline_risk added_risk) _ heq
    · rw [calc_eq_dispatch baseline_risk added_risk added_risk_type
        risk_ratio_to_risk_ratio (by rw [h]; exact lookup_risk)] at heq
      exact map_ne_unsupported _ _ (identity_no_unsupported baseline_risk added_risk) _ heq
    · rw [calc_eq_dispatch baseline_risk added_risk added_risk_type
        risk_ratio_to_risk_ratio (by rw [h]; exact lookup_relative)] at heq
      exact map_ne_unsupported _ _ (identity_no_unsupported baseline_risk added_risk) _ heq
  · intro hk
    simp only [calculate_exposed_absolute_risk, lookup_eq_none_of_not_mem _ hk]

end ExpectedFrequencies
